import Mathlib

/-!
# Verification of the experimental Anki scheduler (pylib/anki/scheduler.py)

Shallow embedding of the session scheduler: the mutable fields of the Python
`Scheduler` object become a `Sched` record, the collection / backend / SQL
store consumed by the scheduler becomes a `Col` environment record (card rows,
deck configuration, backend-provided counts, and the opaque random choices as
explicit functions), and each Python method becomes a Lean function threading
the state explicitly.  Machine time (`time.time()` / `intTime()`) is passed as
an explicit `now : Int` argument; within one call the source reads the clock
several times over a few microseconds, modelled as the single value `now`.
-/

namespace AnkiSched

/-- A row of the `cards` table, with the columns the scheduler reads. -/
structure CardRow where
  id : Nat
  nid : Nat
  did : Nat
  odid : Nat
  ord : Nat
  queue : Int
  due : Int
  deriving DecidableEq, Repr

/-- A deck together with the configuration fields the scheduler reads
(`decks.get`, `decks.confForDid`): dyn flag, per-day caps, bury flags. -/
structure DeckInfo where
  id : Nat
  name : String
  dyn : Bool
  newPerDay : Nat
  revPerDay : Nat
  buryNew : Bool
  buryRev : Bool
  deriving DecidableEq, Repr

/-- The environment of one scheduler call: the collection, its configuration,
the backend answers, and explicit functions standing for the store's random
choices (`random()` tiebreak of the review query, the day-seeded shuffle of
the day-learning queue: both are modelled as sort keys, so the produced lists
are permutations of the selected rows just as in the source). -/
structure Col where
  cards : List CardRow
  decks : List DeckInfo
  /-- `decks.parents(did)`: the ancestors of a deck, as deck objects. -/
  parentsOf : Nat → List DeckInfo
  /-- `decks.active()`: the selected deck and its descendants. -/
  activeDecks : List Nat
  /-- `decks.selected()` -/
  selected : Nat
  /-- `conf["curDeck"]` -/
  curDeck : Nat
  /-- `conf["collapseTime"]` -/
  collapseTime : Int
  /-- `conf["newSpread"]` -/
  newSpread : Nat
  /-- `conf.get("dayLearnFirst", False)` -/
  dayLearnFirst : Bool
  /-- `sched_timing_today().days_elapsed` -/
  daysElapsed : Int
  /-- `sched_timing_today().next_day_at` -/
  nextDayAt : Int
  /-- whether `find_deck_in_tree(tree, curDeck)` finds a node -/
  nodeFound : Bool
  /-- `node.new_count` of the current deck in the due tree -/
  treeNew : Nat
  /-- `node.review_count` -/
  treeRev : Nat
  /-- `node.learn_count` -/
  treeLrn : Nat
  /-- `counts_for_deck_today(did).new` -/
  consumedNew : Nat → Nat
  /-- `counts_for_deck_today(did).review` -/
  consumedRev : Nat → Nat
  /-- sort key modelling `r.shuffle` seeded by `today` in `_fillLrnDay` -/
  dayKey : Int → Nat → Nat
  /-- sort key modelling the `random()` tiebreak of the review query -/
  revKey : Nat → Nat
  /-- `state_is_leech(new_state)` where `new_state` is the backend state the
  chosen ease leads to for this card -/
  stateIsLeech : Nat → Nat → Bool
  /-- the card row after `answer_card` + `card.load()` for (card id, ease) -/
  postCard : Nat → Nat → CardRow

/-- The mutable scheduler fields (`Scheduler.__init__` plus the attributes
created by `reset`).  The learning queue is the heap of `(due, id)` pairs,
kept sorted so that the head is the heap minimum. -/
structure Sched where
  reps : Nat
  today : Int
  dayCutoff : Int
  haveQueues : Bool
  lrnCutoff : Int
  newCount : Int
  lrnCount : Int
  revCount : Int
  immediateLearnCount : Int
  newCardModulus : Int
  newDids : List Nat
  lrnDids : List Nat
  newQueue : List Nat
  lrnQueue : List (Int × Nat)
  lrnDayQueue : List Nat
  revQueue : List Nat
  deriving DecidableEq, Repr

/-- `QUEUE_TYPE_NEW` -/
def QUEUE_TYPE_NEW : Int := 0
/-- `QUEUE_TYPE_LRN` -/
def QUEUE_TYPE_LRN : Int := 1
/-- `QUEUE_TYPE_REV` -/
def QUEUE_TYPE_REV : Int := 2
/-- `QUEUE_TYPE_DAY_LEARN_RELEARN` -/
def QUEUE_TYPE_DAY_LEARN_RELEARN : Int := 3
/-- `QUEUE_TYPE_PREVIEW` -/
def QUEUE_TYPE_PREVIEW : Int := 4
/-- `NEW_CARDS_DISTRIBUTE` -/
def NEW_CARDS_DISTRIBUTE : Nat := 0
/-- `NEW_CARDS_LAST` -/
def NEW_CARDS_LAST : Nat := 1
/-- `NEW_CARDS_FIRST` -/
def NEW_CARDS_FIRST : Nat := 2

/-- `self.queueLimit = 50` -/
def queueLimit : Int := 50
/-- `self.reportLimit = 1000` -/
def reportLimit : Nat := 1000
/-- `self.dynReportLimit = 99999` -/
def dynReportLimit : Int := 99999

/-- Ordered insertion (used both to model `heappush` and as the step of the
insertion sort standing for the store's ORDER BY). -/
def insertLe (le : α → α → Bool) (x : α) : List α → List α
  | [] => [x]
  | y :: ys => if le x y then x :: y :: ys else y :: insertLe le x ys

/-- Insertion sort by a boolean comparison. -/
def sortLe (le : α → α → Bool) : List α → List α
  | [] => []
  | x :: xs => insertLe le x (sortLe le xs)

/-- Lexicographic comparison of `(due, id)` pairs, as Python tuple order. -/
def lePair (a b : Int × Nat) : Bool :=
  decide (a.1 < b.1 ∨ (a.1 = b.1 ∧ a.2 ≤ b.2))

/-- `decks.get(did)`: falls back to the default deck when missing. -/
def defaultDeck : DeckInfo :=
  { id := 1, name := "Default", dyn := false, newPerDay := 20, revPerDay := 200,
    buryNew := true, buryRev := true }

/-- `self.col.decks.get(did)` (with the default-deck fallback of `decks.get`). -/
def getDeck (env : Col) (did : Nat) : DeckInfo :=
  (env.decks.find? (fun d => d.id == did)).getD defaultDeck

/-- `self.col.decks.get(did, default=False)` -/
def getDeckOpt (env : Col) (did : Nat) : Option DeckInfo :=
  env.decks.find? (fun d => d.id == did)

/-- `_updateCutoff` -/
def updateCutoff (env : Col) (s : Sched) : Sched :=
  { s with today := env.daysElapsed, dayCutoff := env.nextDayAt }

/-- `_reset_counts` -/
def reset_counts (env : Col) (s : Sched) : Sched :=
  if env.nodeFound then
    { s with newCount := (env.treeNew : Int), revCount := (env.treeRev : Int),
             immediateLearnCount := (env.treeLrn : Int) }
  else
    -- current deck points to a missing deck
    { s with newCount := 0, revCount := 0, immediateLearnCount := 0 }

/-- `_deckNewLimitSingle` (the default `scheduler_new_limit_for_single_deck`
hook is the identity). -/
def deckNewLimitSingle (env : Col) (g : DeckInfo) : Int :=
  if g.dyn then dynReportLimit
  else max 0 ((g.newPerDay : Int) - (env.consumedNew g.id : Int))

/-- `_deckNewLimit` with the default limit function: fold over the deck and
its parents, `-1` standing for "no limit seen yet". -/
def deckNewLimit (env : Col) (did : Nat) : Int :=
  (getDeck env did :: env.parentsOf did).foldl
    (fun lim g =>
      let rem := deckNewLimitSingle env g
      if lim = -1 then rem else min rem lim)
    (-1)

/-- the `select id from cards where did = ? and queue = 0 order by due,ord
limit ?` query of `_fillNew`. -/
def dbNewIds (env : Col) (did : Nat) (lim : Int) : List Nat :=
  ((sortLe (fun a b => decide (a.due < b.due ∨ (a.due = b.due ∧ a.ord ≤ b.ord)))
      (env.cards.filter
        (fun c => decide (c.did = did ∧ c.queue = QUEUE_TYPE_NEW)))).map
    (fun c => c.id)).take lim.toNat

/-- `_updateNewCardRatio` -/
def updateNewCardRatio (env : Col) (s : Sched) : Sched :=
  if env.newSpread = NEW_CARDS_DISTRIBUTE ∧ s.newCount ≠ 0 then
    let m := (s.newCount + s.revCount).fdiv s.newCount
    -- if there are cards to review, ensure modulo >= 2
    { s with newCardModulus := if s.revCount ≠ 0 then max 2 m else m }
  else
    { s with newCardModulus := 0 }

/-- `_resetNew` -/
def resetNew (env : Col) (s : Sched) : Sched :=
  updateNewCardRatio env { s with newDids := env.activeDecks, newQueue := [] }

/-- the deck-iteration loop of `_fillNew`: returns the filled (reversed) queue
and the remaining `_newDids` on success, `none` when every deck is exhausted
(in which case `_newDids` has been emptied). -/
def fillNewLoop (env : Col) : List Nat → Option (List Nat × List Nat)
  | [] => none
  | did :: rest =>
    let lim := min queueLimit (deckNewLimit env did)
    if lim ≠ 0 then
      let q := dbNewIds env did lim
      if q ≠ [] then some (q.reverse, did :: rest)
      else fillNewLoop env rest
    else fillNewLoop env rest

/-- `_fillNew(recursing=True)` -/
def fillNewR (env : Col) (s : Sched) : Bool × Sched :=
  if s.newQueue ≠ [] then (true, s)
  else if s.newCount = 0 then (false, s)
  else
    match fillNewLoop env s.newDids with
    | some (q, dids) => (true, { s with newQueue := q, newDids := dids })
    | none => (false, { s with newDids := [] })  -- print("bug: fillNew()")

/-- the state after `_fillNew`'s one-shot self-heal (`_reset_counts();
_resetNew()` once the deck list has been emptied by the loop). -/
def selfHealNewState (env : Col) (s : Sched) : Sched :=
  resetNew env (reset_counts env { s with newDids := [] })

/-- `_fillNew` (recursing=False) -/
def fillNew (env : Col) (s : Sched) : Bool × Sched :=
  if s.newQueue ≠ [] then (true, s)
  else if s.newCount = 0 then (false, s)
  else
    match fillNewLoop env s.newDids with
    | some (q, dids) => (true, { s with newQueue := q, newDids := dids })
    | none => fillNewR env (selfHealNewState env s)

/-- `_getNewCard` (the Python `list.pop()` pops the end of the list). -/
def getNewCard (env : Col) (s : Sched) : Option Nat × Sched :=
  match fillNew env s with
  | (true, s1) =>
    (some (s1.newQueue.getLastD 0),
     { s1 with newQueue := s1.newQueue.dropLast, newCount := s1.newCount - 1 })
  | (false, s1) => (none, s1)

/-- `_timeForNewCard` (an `Option Bool` because the unreachable final branch
returns `None`; the caller tests Python truthiness, i.e. `= some true`). -/
def timeForNewCard (env : Col) (s : Sched) : Option Bool :=
  if s.newCount = 0 then some false
  else if env.newSpread = NEW_CARDS_LAST then some false
  else if env.newSpread = NEW_CARDS_FIRST then some true
  else if s.newCardModulus ≠ 0 then
    some (decide (s.reps ≠ 0 ∧ (s.reps : Int) % s.newCardModulus = 0))
  else none

/-- `_updateLrnCutoff` -/
def updateLrnCutoff (env : Col) (now : Int) (force : Bool) (s : Sched) :
    Bool × Sched :=
  let nextCutoff := now + env.collapseTime
  if nextCutoff - s.lrnCutoff > 60 ∨ force = true then
    (true, { s with lrnCutoff := nextCutoff })
  else (false, s)

/-- the sub-day + day + preview count of `_resetLrnCount`, as a function of
the cutoff and day used. -/
def lrnRecount (env : Col) (cutoff today : Int) : Int :=
  ((env.cards.countP
      (fun c => decide (c.did ∈ env.activeDecks ∧ c.queue = QUEUE_TYPE_LRN ∧
        c.due < cutoff)) : Nat) : Int)
  + ((env.cards.countP
      (fun c => decide (c.did ∈ env.activeDecks ∧
        c.queue = QUEUE_TYPE_DAY_LEARN_RELEARN ∧ c.due ≤ today)) : Nat) : Int)
  + ((env.cards.countP
      (fun c => decide (c.did ∈ env.activeDecks ∧
        c.queue = QUEUE_TYPE_PREVIEW)) : Nat) : Int)

/-- `_resetLrnCount` -/
def resetLrnCount (env : Col) (s : Sched) : Sched :=
  { s with lrnCount := lrnRecount env s.lrnCutoff s.today }

/-- `_resetLrn` -/
def resetLrn (env : Col) (now : Int) (s : Sched) : Sched :=
  let s := (updateLrnCutoff env now true s).2
  let s := resetLrnCount env s
  { s with lrnQueue := [], lrnDayQueue := [], lrnDids := env.activeDecks }

/-- `_maybeResetLrn` -/
def maybeResetLrn (env : Col) (now : Int) (force : Bool) (s : Sched) : Sched :=
  let r := updateLrnCutoff env now force s
  if r.1 then resetLrn env now r.2 else r.2

/-- the `select due, id ... queue in (1,4) and due < ? limit 1000` query of
`_fillLrn` followed by the Python `sort()`. -/
def dbLrnPairs (env : Col) (cutoff : Int) : List (Int × Nat) :=
  sortLe lePair
    (((env.cards.filter
        (fun c => decide (c.did ∈ env.activeDecks ∧
          (c.queue = QUEUE_TYPE_LRN ∨ c.queue = QUEUE_TYPE_PREVIEW) ∧
          c.due < cutoff))).map (fun c => (c.due, c.id))).take reportLimit)

/-- `_fillLrn` (truthiness of the returned list becomes the `Bool`). -/
def fillLrn (env : Col) (now : Int) (s : Sched) : Bool × Sched :=
  if s.lrnCount = 0 then (false, s)
  else if s.lrnQueue ≠ [] then (true, s)
  else
    let cutoff := now + env.collapseTime
    let q := dbLrnPairs env cutoff
    (q ≠ [], { s with lrnQueue := q })

/-- `_getLrnCard` (the pop cutoff is `now`, extended by the collapse window
when `collapse` is set). -/
def getLrnCard (env : Col) (now : Int) (collapse : Bool) (s : Sched) :
    Option Nat × Sched :=
  match fillLrn env now (maybeResetLrn env now (collapse ∧ s.lrnCount = 0) s) with
  | (false, s) => (none, s)
  | (true, s) =>
    match s.lrnQueue with
    | [] => (none, s)
    | (d, i) :: rest =>
      if d < now + (if collapse then env.collapseTime else 0) then
        (some i, { s with lrnQueue := rest, lrnCount := s.lrnCount - 1 })
      else (none, s)

/-- per-deck day-learning query of `_fillLrnDay` with the seeded shuffle. -/
def dbLrnDayIds (env : Col) (did : Nat) (today : Int) : List Nat :=
  ((env.cards.filter
      (fun c => decide (c.did = did ∧ c.queue = QUEUE_TYPE_DAY_LEARN_RELEARN ∧
        c.due ≤ today))).map (fun c => c.id)).take queueLimit.toNat

/-- the deck-iteration loop of `_fillLrnDay`. -/
def fillLrnDayLoop (env : Col) (today : Int) : List Nat → Option (List Nat × List Nat)
  | [] => none
  | did :: rest =>
    let q := dbLrnDayIds env did today
    if q ≠ [] then
      let q := sortLe (fun a b => decide (env.dayKey today a ≤ env.dayKey today b)) q
      -- is the current did empty?
      if q.length < queueLimit.toNat then some (q, rest)
      else some (q, did :: rest)
    else fillLrnDayLoop env today rest

/-- `_fillLrnDay` -/
def fillLrnDay (env : Col) (s : Sched) : Bool × Sched :=
  if s.lrnCount = 0 then (false, s)
  else if s.lrnDayQueue ≠ [] then (true, s)
  else
    match fillLrnDayLoop env s.today s.lrnDids with
    | some (q, dids) => (true, { s with lrnDayQueue := q, lrnDids := dids })
    | none => (false, { s with lrnDids := [] })

/-- `_getLrnDayCard` -/
def getLrnDayCard (env : Col) (s : Sched) : Option Nat × Sched :=
  match fillLrnDay env s with
  | (true, s1) =>
    (some (s1.lrnDayQueue.getLastD 0),
     { s1 with lrnDayQueue := s1.lrnDayQueue.dropLast,
               lrnCount := s1.lrnCount - 1 })
  | (false, s1) => (none, s1)

/-- whether two consecutive colons occur: the `"::" in d["name"]` test of
`_deckRevLimitSingle`, on the character list of the name. -/
def hasSepChars : List Char → Bool
  | [] => false
  | [_] => false
  | a :: b :: rest =>
    if a = ':' ∧ b = ':' then true else hasSepChars (b :: rest)

/-- the recursive call of `_deckRevLimitSingle` on a parent, where
`parentLimit` is set so no further parent walk happens. -/
def revLimitParent (env : Col) (pl : Int) (p : DeckInfo) : Int :=
  if p.dyn then dynReportLimit
  else min pl (max 0 ((p.revPerDay : Int) - (env.consumedRev p.id : Int)))

/-- `_deckRevLimitSingle` with `parentLimit=None`. -/
def deckRevLimitSingle (env : Col) (d : Option DeckInfo) : Int :=
  match d with
  | none => 0  -- invalid deck selected
  | some d =>
    if d.dyn then dynReportLimit
    else
      let lim := max 0 ((d.revPerDay : Int) - (env.consumedRev d.id : Int))
      if hasSepChars d.name.data then
        (env.parentsOf d.id).foldl
          (fun lim p => min lim (revLimitParent env lim p)) lim
      else lim

/-- `_currentRevLimit` -/
def currentRevLimit (env : Col) : Int :=
  deckRevLimitSingle env (getDeckOpt env env.selected)

/-- the review query of `_fillRev` (`order by due, random()` modelled by the
environment's tiebreak key). -/
def dbRevIds (env : Col) (today : Int) (lim : Int) : List Nat :=
  ((sortLe
      (fun a b => decide (a.due < b.due ∨
        (a.due = b.due ∧ env.revKey a.id ≤ env.revKey b.id)))
      (env.cards.filter
        (fun c => decide (c.did ∈ env.activeDecks ∧ c.queue = QUEUE_TYPE_REV ∧
          c.due ≤ today)))).map (fun c => c.id)).take lim.toNat

/-- `_resetRev` -/
def resetRev (s : Sched) : Sched :=
  { s with revQueue := [] }

/-- the ids produced by `_fillRev`'s query attempt (empty when the limit is
zero, in which case no query is issued). -/
def revFillAttempt (env : Col) (s : Sched) : List Nat :=
  let lim := min queueLimit (currentRevLimit env)
  if lim ≠ 0 then dbRevIds env s.today lim else []

/-- `_fillRev(recursing=True)` -/
def fillRevR (env : Col) (s : Sched) : Bool × Sched :=
  if s.revQueue ≠ [] then (true, s)
  else if s.revCount = 0 then (false, s)
  else
    let q := revFillAttempt env s
    if q ≠ [] then (true, { s with revQueue := q.reverse })
    else (false, s)  -- print("bug: fillRev2()")

/-- the state after `_fillRev`'s one-shot self-heal. -/
def selfHealRevState (env : Col) (s : Sched) : Sched :=
  resetRev (reset_counts env s)

/-- `_fillRev` (recursing=False) -/
def fillRev (env : Col) (s : Sched) : Bool × Sched :=
  if s.revQueue ≠ [] then (true, s)
  else if s.revCount = 0 then (false, s)
  else
    let q := revFillAttempt env s
    if q ≠ [] then (true, { s with revQueue := q.reverse })
    else fillRevR env (selfHealRevState env s)

/-- `_getRevCard` -/
def getRevCard (env : Col) (s : Sched) : Option Nat × Sched :=
  match fillRev env s with
  | (true, s1) =>
    (some (s1.revQueue.getLastD 0),
     { s1 with revQueue := s1.revQueue.dropLast, revCount := s1.revCount - 1 })
  | (false, s1) => (none, s1)

/-- `_getCard`: the per-pull selection chain. -/
def getCardInner (env : Col) (now : Int) (s : Sched) : Option Nat × Sched :=
  -- learning card due?
  match getLrnCard env now false s with
  | (some c, s) => (some c, s)
  | (none, s) =>
    -- new first, or time for one?
    match (if timeForNewCard env s = some true then getNewCard env s
           else (none, s)) with
    | (some c, s) => (some c, s)
    | (none, s) =>
      -- day learning first and card due?
      match (if env.dayLearnFirst then getLrnDayCard env s else (none, s)) with
      | (some c, s) => (some c, s)
      | (none, s) =>
        -- card due for review?
        match getRevCard env s with
        | (some c, s) => (some c, s)
        | (none, s) =>
          -- day learning card due?
          match (if env.dayLearnFirst then (none, s)
                 else getLrnDayCard env s) with
          | (some c, s) => (some c, s)
          | (none, s) =>
            -- new cards left?
            match getNewCard env s with
            | (some c, s) => (some c, s)
            | (none, s) =>
              -- collapse or finish
              getLrnCard env now true s

/-- `reset` (`decks.update_active()` touches only the external store). -/
def reset (env : Col) (now : Int) (s : Sched) : Sched :=
  let s := updateCutoff env s
  let s := reset_counts env s
  let s := resetLrn env now s
  let s := resetRev s
  let s := resetNew env s
  { s with haveQueues := true }

/-- the tail of `getCard` after the day / queue checks (log, bury-siblings
skipped since `_burySiblingsOnAnswer` is `True`, reps increment, timer). -/
def getCardCore (env : Col) (now : Int) (s : Sched) : Option Nat × Sched :=
  match getCardInner env now s with
  | (some c, s1) => (some c, { s1 with reps := s1.reps + 1 })
  | (none, s1) => (none, s1)

/-- `getCard`: `_checkDay`, lazy first reset, then `_getCard`. -/
def getCard (env : Col) (now : Int) (s : Sched) : Option Nat × Sched :=
  let s := if s.dayCutoff < now then reset env now s else s
  let s := if s.haveQueues = false then reset env now s else s
  getCardCore env now s

/-- `Scheduler.__init__`: fields set in the constructor; the queue/count
attributes do not exist before the first `reset` and are zero-initialised
here (any access before `reset` would raise in the source). -/
def initSched (env : Col) : Sched :=
  updateCutoff env
    { reps := 0, today := 0, dayCutoff := 0, haveQueues := false,
      lrnCutoff := 0, newCount := 0, lrnCount := 0, revCount := 0,
      immediateLearnCount := 0, newCardModulus := 0, newDids := [],
      lrnDids := [], newQueue := [], lrnQueue := [], lrnDayQueue := [],
      revQueue := [] }

/-- iterate `getCard` and collect the returned ids. -/
def pullIds (env : Col) (now : Int) : Nat → Sched → List (Option Nat)
  | 0, _ => []
  | Nat.succ k, s =>
    let r := getCard env now s
    r.1 :: pullIds env now k r.2

-- Sibling burying and answer handling
----------------------------------------------------------------------------

/-- `_home_config(card)`: config of `card.odid or card.did`. -/
def homeConfig (env : Col) (card : CardRow) : DeckInfo :=
  getDeck env (if card.odid ≠ 0 then card.odid else card.did)

/-- the sibling query of `_burySiblings`: same note, other id, new or
due review. -/
def siblingRows (env : Col) (card : CardRow) (today : Int) : List CardRow :=
  env.cards.filter
    (fun c => decide (c.nid = card.nid ∧ c.id ≠ card.id ∧
      (c.queue = QUEUE_TYPE_NEW ∨
        (c.queue = QUEUE_TYPE_REV ∧ c.due ≤ today))))

/-- one iteration of the `_burySiblings` loop: discard from the in-memory
queue, and record the id for the external bury call when the policy for its
kind is enabled. -/
def buryStep (buryNew buryRev : Bool) (p : Sched × List Nat) (c : CardRow) :
    Sched × List Nat :=
  if c.queue = QUEUE_TYPE_REV then
    ({ p.1 with revQueue := p.1.revQueue.erase c.id },
     if buryRev then p.2 ++ [c.id] else p.2)
  else
    ({ p.1 with newQueue := p.1.newQueue.erase c.id },
     if buryNew then p.2 ++ [c.id] else p.2)

/-- `_burySiblings`: returns the updated state and the ids passed to the
external `bury_cards` call (empty list = no call). -/
def burySiblings (env : Col) (card : CardRow) (s : Sched) :
    Sched × List Nat :=
  let conf := homeConfig env card
  (siblingRows env card s.today).foldl
    (buryStep conf.buryNew conf.buryRev) (s, [])

/-- `_maybe_requeue_card` (acting on the reloaded post-answer card). -/
def maybeRequeueCard (env : Col) (now : Int) (card : CardRow) (s : Sched) :
    Sched :=
  -- preview cards
  if card.queue = QUEUE_TYPE_PREVIEW then
    { s with lrnCount := s.lrnCount + 1 }
  -- learning cards
  else if card.queue ≠ QUEUE_TYPE_LRN then s
  else if now + env.collapseTime ≤ card.due then s
  else
    -- card is due within collapse time: add it back to the learning queue
    let s1 := { s with lrnCount := s.lrnCount + 1 }
    let due1 :=
      match s1.lrnQueue with
      | [] => card.due
      | (d0, _) :: _ =>
        if s1.revCount = 0 ∧ s1.newCount = 0 then max card.due (d0 + 1)
        else card.due
    { s1 with lrnQueue := insertLe lePair (due1, card.id) s1.lrnQueue }

/-- `answerCard`: bury siblings (`_burySiblingsOnAnswer` is `True`), let the
backend answer and reload the card, then either stop on leech or re-queue.
Returns the state and the ids sent to the external bury call. -/
def answerCard (env : Col) (now : Int) (card : CardRow) (ease : Nat)
    (s : Sched) : Sched × List Nat :=
  let bs := burySiblings env card s
  let card1 := env.postCard card.id ease
  if env.stateIsLeech card.id ease then bs
  else (maybeRequeueCard env now card1 bs.1, bs.2)

-- The seven candidate sources of `_getCard`, written in the order the
-- specification lists them, and the generic first-success combinator.
----------------------------------------------------------------------------

/-- first-success chaining of candidate sources, threading the state. -/
def firstHit : List (Sched → Option Nat × Sched) → Sched → Option Nat × Sched
  | [], s => (none, s)
  | f :: fs, s =>
    match f s with
    | (some c, s) => (some c, s)
    | (none, s) => firstHit fs s

/-- source 1: a due short-term learning card. -/
def srcLrn (env : Col) (now : Int) (s : Sched) : Option Nat × Sched :=
  getLrnCard env now false s

/-- source 2: a new card, if the interleave timing condition holds. -/
def srcNewIfTime (env : Col) (s : Sched) : Option Nat × Sched :=
  if timeForNewCard env s = some true then getNewCard env s else (none, s)

/-- source 3: a day-learning card, if the dayLearnFirst flag is set. -/
def srcDayLrnIfFirst (env : Col) (s : Sched) : Option Nat × Sched :=
  if env.dayLearnFirst then getLrnDayCard env s else (none, s)

/-- source 4: a review card. -/
def srcRev (env : Col) (s : Sched) : Option Nat × Sched :=
  getRevCard env s

/-- source 5: a day-learning card, if the flag was not set. -/
def srcDayLrnIfNotFirst (env : Col) (s : Sched) : Option Nat × Sched :=
  if env.dayLearnFirst then (none, s) else getLrnDayCard env s

/-- source 6: a new card unconditionally (quota permitting). -/
def srcNew (env : Col) (s : Sched) : Option Nat × Sched :=
  getNewCard env s

/-- source 7: a short-term learning card with the collapse window applied. -/
def srcLrnCollapse (env : Col) (now : Int) (s : Sched) : Option Nat × Sched :=
  getLrnCard env now true s

/-- the seven candidate sources in the order the specification states. -/
def sevenSources (env : Col) (now : Int) : List (Sched → Option Nat × Sched) :=
  [srcLrn env now, srcNewIfTime env, srcDayLrnIfFirst env, srcRev env,
   srcDayLrnIfNotFirst env, srcNew env, srcLrnCollapse env now]

-- Concrete environments used by witnesses and counterexamples
----------------------------------------------------------------------------

/-- a placeholder row for environment functions that are never consulted. -/
def dummyCard : CardRow :=
  { id := 0, nid := 0, did := 0, odid := 0, ord := 0, queue := 0, due := 0 }

/-- a new card in deck 1. -/
def newRow (i : Nat) (due : Int) : CardRow :=
  { id := i, nid := i, did := 1, odid := 0, ord := 0,
    queue := QUEUE_TYPE_NEW, due := due }

/-- a review card in deck 1, due on day `due`. -/
def revRow (i : Nat) (due : Int) : CardRow :=
  { id := i, nid := i, did := 1, odid := 0, ord := 0,
    queue := QUEUE_TYPE_REV, due := due }

/-- a short-term learning card in deck 1, due at epoch-second `due`. -/
def lrnRow (i : Nat) (due : Int) : CardRow :=
  { id := i, nid := i, did := 1, odid := 0, ord := 0,
    queue := QUEUE_TYPE_LRN, due := due }

/-- the single study deck of the concrete environments. -/
def deck1 : DeckInfo :=
  { id := 1, name := "Default", dyn := false, newPerDay := 20, revPerDay := 20,
    buryNew := true, buryRev := true }

/-- a base environment: one deck, no cards, fixed clocks. -/
def baseEnv : Col :=
  { cards := [], decks := [deck1], parentsOf := fun _ => [],
    activeDecks := [1], selected := 1, curDeck := 1, collapseTime := 1200,
    newSpread := NEW_CARDS_DISTRIBUTE, dayLearnFirst := false,
    daysElapsed := 100, nextDayAt := 99999999, nodeFound := true,
    treeNew := 0, treeRev := 0, treeLrn := 0,
    consumedNew := fun _ => 0, consumedRev := fun _ => 0,
    dayKey := fun _ i => i, revKey := fun i => i,
    stateIsLeech := fun _ _ => false, postCard := fun _ _ => dummyCard }

/-- C3 environment: ten new cards and five due reviews. -/
def envSim : Col :=
  { baseEnv with
    cards :=
      [newRow 101 1, newRow 102 2, newRow 103 3, newRow 104 4, newRow 105 5,
       newRow 106 6, newRow 107 7, newRow 108 8, newRow 109 9, newRow 110 10,
       revRow 201 100, revRow 202 100, revRow 203 100, revRow 204 100,
       revRow 205 100],
    treeNew := 10, treeRev := 5 }

-- Specification-side definitions (written after the words of the spec, to be
-- compared against the source translation)
----------------------------------------------------------------------------

/-- the spec's per-deck raw new limit: `max(0, dailyCapNew -
newConsumedToday)`, with a filtered/dynamic deck contributing the large
sentinel limit instead. -/
def rawNewLimitSpec (env : Col) (g : DeckInfo) : Int :=
  if g.dyn then dynReportLimit
  else max 0 ((g.newPerDay : Int) - (env.consumedNew g.id : Int))

/-- the spec's re-queue due value: raised to `max(due, smallest buffered due
+ 1)` exactly when the learning buffer is non-empty and both remaining
counts newCount and revCount are zero. -/
def nudgedDue (sb : Sched) (c : CardRow) : Int :=
  match sb.lrnQueue with
  | [] => c.due
  | (d0, _) :: _ =>
    if sb.revCount = 0 ∧ sb.newCount = 0 then max c.due (d0 + 1) else c.due

/-- the state a fully-exhausted `getCard` call leaves behind: only the
learning bookkeeping is refreshed (cutoff moved to the collapse horizon,
count re-derived — zero for an exhausted store — and the learning deck list
restored). -/
def exhaustedReset (env : Col) (now : Int) (s : Sched) : Sched :=
  { s with lrnCutoff := now + env.collapseTime, lrnCount := 0,
           lrnQueue := [], lrnDayQueue := [], lrnDids := env.activeDecks }

/-- iterate `getCard`, keeping only the final state. -/
def afterPulls (env : Col) (now : Int) : Nat → Sched → Sched
  | 0, s => s
  | Nat.succ k, s => afterPulls env now k (getCard env now s).2

-- Further concrete environments and states for witnesses / counterexamples
----------------------------------------------------------------------------

/-- C2 witness decks: a parent whose quota is consumed. -/
def deckP : DeckInfo :=
  { id := 2, name := "P", dyn := false, newPerDay := 5, revPerDay := 20,
    buryNew := true, buryRev := true }

/-- C2 witness decks: a child with plenty of quota of its own. -/
def deckC : DeckInfo :=
  { id := 3, name := "P::C", dyn := false, newPerDay := 20, revPerDay := 20,
    buryNew := true, buryRev := true }

/-- C2 environment: deck 3 is a child of deck 2; deck 2 has consumed its
whole daily new cap. -/
def envDecks : Col :=
  { baseEnv with
    decks := [deck1, deckP, deckC],
    parentsOf := fun did => if did = 3 then [deckP] else [],
    consumedNew := fun did => if did = 2 then 5 else 0 }

/-- C4 environment: one short-term learning card due 30 seconds after
`now = 10000`, collapse window 20 minutes. -/
def envLrn : Col :=
  { baseEnv with cards := [lrnRow 301 10030], treeLrn := 1 }

/-- C4 state: the learning queue holds that card, count 1, cutoff fresh. -/
def sLrn : Sched :=
  { reps := 0, today := 100, dayCutoff := 99999999, haveQueues := true,
    lrnCutoff := 11200, newCount := 0, lrnCount := 1, revCount := 0,
    immediateLearnCount := 1, newCardModulus := 0, newDids := [1],
    lrnDids := [1], newQueue := [], lrnQueue := [(10030, 301)],
    lrnDayQueue := [], revQueue := [] }

/-- C8 environment: one learning card due at 11250, beyond the collapse
horizon of a reset taken at time 10000 (cutoff 11200) but inside the horizon
of a pull at 10070 (cutoff 11270). -/
def envC8 : Col :=
  { baseEnv with cards := [lrnRow 301 11250] }

/-- C8 state: the post-reset state at time 10000 — every remaining count is
zero and every buffer is empty. -/
def sC8 : Sched :=
  { reps := 0, today := 100, dayCutoff := 99999999, haveQueues := true,
    lrnCutoff := 11200, newCount := 0, lrnCount := 0, revCount := 0,
    immediateLearnCount := 0, newCardModulus := 0, newDids := [1],
    lrnDids := [1], newQueue := [], lrnQueue := [], lrnDayQueue := [],
    revQueue := [] }

/-- C9 counterexample state: the review buffer holds two ids while the
remaining review count is 1 (buffer/count drift). -/
def sDrift : Sched :=
  { reps := 0, today := 100, dayCutoff := 99999999, haveQueues := true,
    lrnCutoff := 11200, newCount := 0, lrnCount := 0, revCount := 1,
    immediateLearnCount := 0, newCardModulus := 0, newDids := [1],
    lrnDids := [1], newQueue := [], lrnQueue := [], lrnDayQueue := [],
    revQueue := [7, 8] }

/-- C5/C6 environment: card 401 has a new sibling 402 and a due review
sibling 403; cards 404 and 405 belong to other notes.  The deck buries new
siblings but not review siblings, and an answered learning card comes back
due within the collapse window. -/
def envBury : Col :=
  { baseEnv with
    decks := [{ deck1 with buryNew := true, buryRev := false }],
    cards :=
      [revRow 401 100,
       { newRow 402 1 with nid := 401 },
       { revRow 403 100 with nid := 401 },
       newRow 404 2, revRow 405 100],
    treeNew := 2, treeRev := 3,
    stateIsLeech := fun cid ease => cid == 401 && ease == 1,
    postCard := fun cid _ => { lrnRow 0 10100 with id := cid, nid := 401 } }

/-- C5/C6 state: both siblings and both unrelated cards sit in the buffers,
and the learning queue is non-empty while no new/review quota remains. -/
def sBury : Sched :=
  { reps := 0, today := 100, dayCutoff := 99999999, haveQueues := true,
    lrnCutoff := 11200, newCount := 0, lrnCount := 1, revCount := 0,
    immediateLearnCount := 1, newCardModulus := 0, newDids := [1],
    lrnDids := [1], newQueue := [402, 404], lrnQueue := [(10050, 777)],
    lrnDayQueue := [], revQueue := [403, 405] }

/-- C7 environment: the backend counts promise one new and one review card,
but the store has none (concurrent removal drift). -/
def envHeal : Col :=
  { baseEnv with treeNew := 1, treeRev := 1 }

/-- C7 state: positive counts, empty buffers, nothing in the store. -/
def sHeal : Sched :=
  { reps := 0, today := 100, dayCutoff := 99999999, haveQueues := true,
    lrnCutoff := 11200, newCount := 1, lrnCount := 0, revCount := 1,
    immediateLearnCount := 0, newCardModulus := 0, newDids := [1],
    lrnDids := [1], newQueue := [], lrnQueue := [], lrnDayQueue := [],
    revQueue := [] }

-- ===========================================================================
-- Theorems
-- ===========================================================================

-- Generic facts about folded minima (used by the deck-limit claims)

lemma foldl_min_le_init (l : List Int) : ∀ a : Int, l.foldl min a ≤ a := by
  induction l with
  | nil => intro a; simp
  | cons x xs ih =>
    intro a
    simpa using le_trans (ih (min a x)) (min_le_left a x)

lemma foldl_min_le_mem (l : List Int) :
    ∀ (a x : Int), x ∈ l → l.foldl min a ≤ x := by
  induction l with
  | nil => intro a x h; cases h
  | cons y ys ih =>
    intro a x h
    rcases List.mem_cons.mp h with rfl | h
    · simpa using le_trans (foldl_min_le_init ys (min a x)) (min_le_right a x)
    · simpa using ih (min a y) x h

lemma foldl_min_nonneg (l : List Int) :
    ∀ a : Int, 0 ≤ a → (∀ x ∈ l, 0 ≤ x) → 0 ≤ l.foldl min a := by
  induction l with
  | nil => intro a ha _; simpa using ha
  | cons y ys ih =>
    intro a ha h
    simp only [List.foldl_cons]
    exact ih (min a y) (le_min ha (h y (by simp))) fun x hx => h x (by simp [hx])

lemma deckNewLimitSingle_nonneg (env : Col) (g : DeckInfo) :
    0 ≤ deckNewLimitSingle env g := by
  unfold deckNewLimitSingle dynReportLimit
  split
  · norm_num
  · exact le_max_left 0 _

lemma deckNewLimit_fold_eq (env : Col) (l : List DeckInfo) :
    ∀ a : Int, 0 ≤ a →
      l.foldl (fun lim g =>
        let rem := deckNewLimitSingle env g
        if lim = -1 then rem else min rem lim) a
      = l.foldl (fun lim g => min lim (deckNewLimitSingle env g)) a := by
  induction l with
  | nil => intro a _; rfl
  | cons g gs ih =>
    intro a ha
    have hne : a ≠ (-1 : Int) := by omega
    simp only [List.foldl_cons]
    rw [if_neg hne, min_comm (deckNewLimitSingle env g) a]
    exact ih (min a (deckNewLimitSingle env g))
      (le_min ha (deckNewLimitSingle_nonneg env g))

-- unfolding equations for the first-success combinator

lemma firstHit_nil (s : Sched) : firstHit [] s = (none, s) := rfl

lemma firstHit_cons (f : Sched → Option Nat × Sched)
    (fs : List (Sched → Option Nat × Sched)) (s : Sched) :
    firstHit (f :: fs) s =
      match f s with
      | (some c, s) => (some c, s)
      | (none, s) => firstHit fs s := rfl

-- C1 and C2

/-- C1: every `_getCard` call tries the seven candidate sources in the fixed
order (1) due short-term learning card, (2) new card if the interleave timing
condition holds, (3) day-learning card if `dayLearnFirst` is set, (4) review
card, (5) day-learning card if the flag was not set, (6) new card
unconditionally, (7) short-term learning card with the collapse window, the
first success winning, and returns no card when all seven fail (`firstHit` of
the empty tail yields `none`). -/
theorem getCard_tries_seven_sources_in_order (env : Col) (now : Int)
    (s : Sched) : getCardInner env now s = firstHit (sevenSources env now) s := by
  unfold getCardInner sevenSources
  rw [firstHit_cons]
  simp only [srcLrn]
  rcases h1 : getLrnCard env now false s with ⟨c1, t1⟩
  cases c1 with
  | some c => rfl
  | none =>
  dsimp only
  rw [firstHit_cons]
  simp only [srcNewIfTime]
  rcases h2 : (if timeForNewCard env t1 = some true then getNewCard env t1
      else (none, t1)) with ⟨c2, t2⟩
  cases c2 with
  | some c => rfl
  | none =>
  dsimp only
  rw [firstHit_cons]
  simp only [srcDayLrnIfFirst]
  rcases h3 : (if env.dayLearnFirst then getLrnDayCard env t2
      else (none, t2)) with ⟨c3, t3⟩
  cases c3 with
  | some c => rfl
  | none =>
  dsimp only
  rw [firstHit_cons]
  simp only [srcRev]
  rcases h4 : getRevCard env t3 with ⟨c4, t4⟩
  cases c4 with
  | some c => rfl
  | none =>
  dsimp only
  rw [firstHit_cons]
  simp only [srcDayLrnIfNotFirst]
  rcases h5 : (if env.dayLearnFirst then ((none : Option Nat), t4)
      else getLrnDayCard env t4) with ⟨c5, t5⟩
  cases c5 with
  | some c => rfl
  | none =>
  dsimp only
  rw [firstHit_cons]
  simp only [srcNew]
  rcases h6 : getNewCard env t5 with ⟨c6, t6⟩
  cases c6 with
  | some c => rfl
  | none =>
  dsimp only
  rw [firstHit_cons]
  simp only [srcLrnCollapse]
  rcases h7 : getLrnCard env now true t6 with ⟨c7, t7⟩
  cases c7 with
  | some c => rfl
  | none => rfl

/-- C2: the effective new limit of a deck is the minimum, over the deck and
all its ancestors, of the per-deck raw limit `max(0, cap - consumed)` (a
dynamic deck contributing the sentinel instead), and it collapses to zero as
soon as any deck of the chain has raw limit zero. -/
theorem deckNewLimit_is_min_over_ancestors (env : Col) (did : Nat) :
    (∀ g, deckNewLimitSingle env g = rawNewLimitSpec env g) ∧
    deckNewLimit env did =
      ((env.parentsOf did).map (rawNewLimitSpec env)).foldl min
        (rawNewLimitSpec env (getDeck env did)) ∧
    ∀ g ∈ getDeck env did :: env.parentsOf did, rawNewLimitSpec env g = 0 →
      deckNewLimit env did = 0 := by
  have hraw : ∀ g, deckNewLimitSingle env g = rawNewLimitSpec env g :=
    fun _ => rfl
  have hnn : ∀ g, 0 ≤ rawNewLimitSpec env g := by
    intro g; rw [← hraw]; exact deckNewLimitSingle_nonneg env g
  have heq : deckNewLimit env did =
      ((env.parentsOf did).map (rawNewLimitSpec env)).foldl min
        (rawNewLimitSpec env (getDeck env did)) := by
    unfold deckNewLimit
    rw [List.foldl_cons]
    dsimp only
    rw [if_pos rfl, deckNewLimit_fold_eq env _ _
      (deckNewLimitSingle_nonneg env (getDeck env did)), List.foldl_map]
    rfl
  refine ⟨hraw, heq, ?_⟩
  intro g hg h0
  rw [heq]
  apply le_antisymm
  · rcases List.mem_cons.mp hg with rfl | hg2
    · rw [← h0]; exact foldl_min_le_init _ _
    · exact h0 ▸ foldl_min_le_mem _ _ _ (List.mem_map_of_mem _ hg2)
  · apply foldl_min_nonneg _ _ (hnn _)
    intro x hx
    rcases List.mem_map.mp hx with ⟨g2, _, rfl⟩
    exact hnn g2

/-- C2 witness: the child deck 3 has its own quota (raw limit 20), but its
parent deck 2 has exhausted its daily cap, so the effective limit is 0. -/
theorem deckNewLimit_is_min_over_ancestors_witness :
    rawNewLimitSpec envDecks deckC = 20 ∧ deckNewLimit envDecks 3 = 0 :=
  ⟨by decide,
   (deckNewLimit_is_min_over_ancestors envDecks 3).2.2 deckP (by decide)
     (by decide)⟩

-- C3 and C4

/-- C3 (amended): in distribute mode with a nonzero new count the new-card
modulus is `(newCount + reviewCount) // newCount`, raised to at least 2 when
the review count is nonzero; with newCount=10 and reviewCount=5 the modulus
is 2, and over 15 pulls the new cards arrive on the pulls whose pre-pull
`reps` counter is a nonzero multiple of 2 — pulls 3, 5, 7, 9 — and, once the
five reviews are exhausted, on every remaining pull (10 through 15). -/
theorem newCardModulus_formula_and_schedule :
    (∀ (env : Col) (s : Sched), env.newSpread = NEW_CARDS_DISTRIBUTE →
      s.newCount ≠ 0 →
      (updateNewCardRatio env s).newCardModulus =
        (if s.revCount ≠ 0 then
          max 2 ((s.newCount + s.revCount).fdiv s.newCount)
         else (s.newCount + s.revCount).fdiv s.newCount)) ∧
    (reset envSim 10000 (initSched envSim)).newCardModulus = 2 ∧
    pullIds envSim 10000 15 (initSched envSim) =
      [some 201, some 202, some 101, some 203, some 102, some 204, some 103,
       some 205, some 104, some 105, some 106, some 107, some 108, some 109,
       some 110] := by
  refine ⟨?_, by decide, by decide⟩
  intro env s h1 h2
  unfold updateNewCardRatio
  rw [if_pos ⟨h1, h2⟩]

/-- C3 witness: the modulus formula applied at newCount=10, reviewCount=5
gives 2. -/
theorem newCardModulus_formula_witness :
    (updateNewCardRatio envSim
      { sC8 with newCount := 10, revCount := 5 }).newCardModulus = 2 := by
  have h := newCardModulus_formula_and_schedule.1 envSim
    { sC8 with newCount := 10, revCount := 5 } rfl (by decide)
  rw [h]
  decide

/-- C3 counterexample: in the ten-new/five-review scenario the 2nd pull
yields card 202, which is a review card of the environment, refuting "exactly
every 2nd pull (pulls 2, 4, 6, ...) yields a new item" already at pull 2
(the interleave condition is `reps != 0 and reps % modulus == 0`, and the
`reps` counter is 1, not 2, at the second pull). -/
theorem newCardSchedule_counterexample :
    (pullIds envSim 10000 15 (initSched envSim)).get? 1 = some (some 202) ∧
    ∀ c ∈ envSim.cards, c.id = 202 → c.queue = QUEUE_TYPE_REV := by
  decide

/-- C4: with the learning-cutoff fresh (no 60-second rescan pending) and the
head of the learning buffer being `(d, i)`, `_getLrnCard` pops and returns
`i` exactly when `d` is before the horizon: `now` itself for
`collapse=false`, `now + collapseTime` for `collapse=true`. -/
theorem getLrnCard_collapse_horizon (env : Col) (now : Int) (s : Sched)
    (d : Int) (i : Nat) (rest : List (Int × Nat))
    (hq : s.lrnQueue = (d, i) :: rest)
    (hc : s.lrnCount ≠ 0)
    (hcut : now + env.collapseTime - s.lrnCutoff ≤ 60) :
    ((getLrnCard env now false s).1 = if d < now then some i else none) ∧
    ((getLrnCard env now true s).1 =
      if d < now + env.collapseTime then some i else none) := by
  have hnoop : maybeResetLrn env now false s = s := by
    have hcond : ¬ (now + env.collapseTime - s.lrnCutoff > 60 ∨
        (false : Bool) = true) := by
      simp only [Bool.false_eq_true, or_false]
      omega
    simp only [maybeResetLrn, updateLrnCutoff, if_neg hcond]
    rfl
  have hgen : ∀ collapse : Bool,
      getLrnCard env now collapse s =
        if d < now + (if collapse = true then env.collapseTime else 0) then
          (some i, { s with lrnQueue := rest, lrnCount := s.lrnCount - 1 })
        else (none, s) := by
    intro collapse
    have hf : decide (collapse = true ∧ s.lrnCount = 0) = false := by
      simp [hc]
    simp only [getLrnCard, hf, hnoop, fillLrn, if_neg hc, hq,
      if_pos (List.cons_ne_nil _ _)]
  refine ⟨?_, ?_⟩
  · rw [hgen false]
    by_cases hd : d < now <;> simp [hd]
  · rw [hgen true]
    by_cases hd : d < now + env.collapseTime <;> simp [hd]

/-- C4 witness: a learning card due 30 seconds in the future with a 20-minute
collapse window is not returned with `collapse=false` but is returned with
`collapse=true`. -/
theorem getLrnCard_collapse_horizon_witness :
    ((getLrnCard envLrn 10000 false sLrn).1 = none) ∧
    ((getLrnCard envLrn 10000 true sLrn).1 = some 301) := by
  have h := getLrnCard_collapse_horizon envLrn 10000 sLrn 10030 301 []
    rfl (by decide) (by decide)
  constructor
  · rw [h.1]; decide
  · rw [h.2]; decide

-- C10

/-- C10: on a scheduler whose queues have never been built
(`_haveQueues = False`), `getCard` performs a full `reset` before selecting a
card — the result is exactly the selection run on the reset state — and the
reset rebuilds the counts from the environment and empties/rebuilds all three
queues and marks the queues as built. -/
theorem getCard_resets_first (env : Col) (now : Int) (s : Sched)
    (h : s.haveQueues = false) :
    getCard env now s = getCardCore env now (reset env now s) ∧
    (reset env now s).haveQueues = true ∧
    (reset env now s).newQueue = [] ∧
    (reset env now s).revQueue = [] ∧
    (reset env now s).lrnQueue = [] ∧
    (reset env now s).lrnDayQueue = [] ∧
    (reset env now s).newDids = env.activeDecks ∧
    (reset env now s).lrnDids = env.activeDecks ∧
    (reset env now s).newCount =
      (if env.nodeFound then (env.treeNew : Int) else 0) ∧
    (reset env now s).revCount =
      (if env.nodeFound then (env.treeRev : Int) else 0) ∧
    (reset env now s).lrnCount =
      lrnRecount env (now + env.collapseTime) env.daysElapsed := by
  refine ⟨?_, ?_, ?_, ?_, ?_, ?_, ?_, ?_, ?_, ?_, ?_⟩
  · simp only [getCard]
    by_cases hd : s.dayCutoff < now
    · simp only [if_pos hd]
      have hq : (reset env now s).haveQueues = true := rfl
      rw [hq]
      simp
    · simp only [if_neg hd, if_pos h]
  all_goals
    simp only [reset, updateCutoff, reset_counts, resetLrn, resetLrnCount,
      updateLrnCutoff, resetRev, resetNew, updateNewCardRatio,
      eq_self_iff_true, or_true, if_true]
  all_goals split_ifs <;> rfl

-- C7: the self-heal-once pattern of the new/review fillers

lemma selfHealNewState_newQueue (env : Col) (s : Sched) :
    (selfHealNewState env s).newQueue = [] := by
  simp only [selfHealNewState, resetNew, updateNewCardRatio, reset_counts]
  split_ifs <;> rfl

/-- C7: when the deck iteration of `_fillNew` (resp. the query of `_fillRev`)
yields nothing while the session count is still nonzero, the filler re-derives
counts and buffers exactly once (`_reset_counts` + `_resetNew` / `_resetRev`)
and retries in recursing mode; if the retry also yields nothing, the fill
reports failure (returns `false`, treated as queue exhausted) instead of
recursing further — the recursing run never self-heals again. -/
theorem fill_self_heal_once (env : Col) (s : Sched) :
    (s.newQueue = [] → s.newCount ≠ 0 → fillNewLoop env s.newDids = none →
      fillNew env s = fillNewR env (selfHealNewState env s) ∧
      (((selfHealNewState env s).newCount = 0 ∨
        fillNewLoop env (selfHealNewState env s).newDids = none) →
        (fillNew env s).1 = false)) ∧
    (s.revQueue = [] → s.revCount ≠ 0 → revFillAttempt env s = [] →
      fillRev env s = fillRevR env (selfHealRevState env s) ∧
      (((selfHealRevState env s).revCount = 0 ∨
        revFillAttempt env (selfHealRevState env s) = []) →
        (fillRev env s).1 = false)) := by
  constructor
  · intro h1 h2 h3
    have heq : fillNew env s = fillNewR env (selfHealNewState env s) := by
      unfold fillNew
      rw [if_neg (by simp [h1]), if_neg h2, h3]
    refine ⟨heq, ?_⟩
    intro h4
    rw [heq]
    unfold fillNewR
    rw [if_neg (by simp [selfHealNewState_newQueue])]
    rcases h4 with h4 | h4
    · rw [if_pos h4]
    · by_cases h5 : (selfHealNewState env s).newCount = 0
      · rw [if_pos h5]
      · rw [if_neg h5, h4]
  · intro h1 h2 h3
    have heq : fillRev env s = fillRevR env (selfHealRevState env s) := by
      unfold fillRev
      rw [if_neg (by simp [h1]), if_neg h2]
      simp only [h3, ne_eq, not_true_eq_false, if_neg]
      simp
    refine ⟨heq, ?_⟩
    intro h4
    rw [heq]
    unfold fillRevR
    have hrq : (selfHealRevState env s).revQueue = [] := rfl
    rw [if_neg (by simp [hrq])]
    rcases h4 with h4 | h4
    · rw [if_pos h4]
    · by_cases h5 : (selfHealRevState env s).revCount = 0
      · rw [if_pos h5]
      · rw [if_neg h5]
        simp only [h4]
        simp

/-- C7 witness: with backend counts promising a new and a review card but an
empty store, both fillers self-heal once, fail again, and return failure. -/
theorem fill_self_heal_once_witness :
    (fillNew envHeal sHeal).1 = false ∧ (fillRev envHeal sHeal).1 = false := by
  have h := fill_self_heal_once envHeal sHeal
  exact ⟨(h.1 rfl (by decide) (by decide)).2 (Or.inr (by decide)),
         (h.2 rfl (by decide) (by decide)).2 (Or.inr (by decide))⟩

-- C9: count bookkeeping

lemma lrnRecount_nonneg (env : Col) (cutoff today : Int) :
    0 ≤ lrnRecount env cutoff today := by
  unfold lrnRecount
  have h1 := Int.natCast_nonneg (env.cards.countP
    (fun c => decide (c.did ∈ env.activeDecks ∧ c.queue = QUEUE_TYPE_LRN ∧
      c.due < cutoff)))
  have h2 := Int.natCast_nonneg (env.cards.countP
    (fun c => decide (c.did ∈ env.activeDecks ∧
      c.queue = QUEUE_TYPE_DAY_LEARN_RELEARN ∧ c.due ≤ today)))
  have h3 := Int.natCast_nonneg (env.cards.countP
    (fun c => decide (c.did ∈ env.activeDecks ∧ c.queue = QUEUE_TYPE_PREVIEW)))
  omega

lemma maybeResetLrn_lrnCount_nonneg (env : Col) (now : Int) (f : Bool)
    (s : Sched) (h : 0 ≤ s.lrnCount) :
    0 ≤ (maybeResetLrn env now f s).lrnCount := by
  simp only [maybeResetLrn, updateLrnCutoff]
  split_ifs <;> first
    | exact lrnRecount_nonneg env _ _
    | exact h
    | simp_all

lemma fillLrn_count (env : Col) (now : Int) (x : Sched) :
    ((fillLrn env now x).2).lrnCount = x.lrnCount := by
  unfold fillLrn
  split_ifs <;> rfl

lemma fillLrn_true (env : Col) (now : Int) (x : Sched) :
    (fillLrn env now x).1 = true → x.lrnCount ≠ 0 := by
  unfold fillLrn
  split_ifs with hz
  · intro h
    simp at h
  all_goals intro _; exact hz

lemma fillLrnDay_count (env : Col) (x : Sched) :
    ((fillLrnDay env x).2).lrnCount = x.lrnCount := by
  unfold fillLrnDay
  split_ifs <;> try rfl
  rcases h : fillLrnDayLoop env x.today x.lrnDids with _ | ⟨q, dids⟩ <;> rfl

lemma fillLrnDay_true (env : Col) (x : Sched) :
    (fillLrnDay env x).1 = true → x.lrnCount ≠ 0 := by
  unfold fillLrnDay
  split_ifs with hz
  · intro h
    simp at h
  · intro _; exact hz
  · rcases h : fillLrnDayLoop env x.today x.lrnDids with _ | ⟨q, dids⟩
    · intro h2
      simp at h2
    · intro _; exact hz

lemma selfHealNewState_count_nonneg (env : Col) (s : Sched) :
    0 ≤ (selfHealNewState env s).newCount := by
  unfold selfHealNewState resetNew updateNewCardRatio reset_counts
  split_ifs <;> simp

lemma fillNew_pos (env : Col) (s : Sched) (h0 : 0 ≤ s.newCount)
    (h1 : s.newQueue ≠ [] → 0 < s.newCount) :
    0 ≤ ((fillNew env s).2).newCount ∧
    ((fillNew env s).1 = true → 0 < ((fillNew env s).2).newCount) := by
  unfold fillNew
  by_cases hq : s.newQueue ≠ []
  · rw [if_pos hq]
    exact ⟨h0, fun _ => h1 hq⟩
  · rw [if_neg hq]
    by_cases hc : s.newCount = 0
    · rw [if_pos hc]
      exact ⟨h0, fun h => by simp at h⟩
    · rw [if_neg hc]
      rcases hl : fillNewLoop env s.newDids with _ | ⟨q, dids⟩
      · dsimp only
        have hsq := selfHealNewState_newQueue env s
        have hsc := selfHealNewState_count_nonneg env s
        unfold fillNewR
        rw [if_neg (by simp [hsq])]
        by_cases hc2 : (selfHealNewState env s).newCount = 0
        · rw [if_pos hc2]
          exact ⟨hsc, fun h => by simp at h⟩
        · rw [if_neg hc2]
          rcases hl2 : fillNewLoop env (selfHealNewState env s).newDids with
            _ | ⟨q2, d2⟩
          · dsimp only
            exact ⟨hsc, fun h => by simp at h⟩
          · dsimp only
            exact ⟨hsc, fun _ => by omega⟩
      · dsimp only
        exact ⟨h0, fun _ => by omega⟩

lemma selfHealRevState_count_nonneg (env : Col) (s : Sched) :
    0 ≤ (selfHealRevState env s).revCount := by
  unfold selfHealRevState resetRev reset_counts
  split_ifs <;> simp

lemma fillRev_pos (env : Col) (s : Sched) (h0 : 0 ≤ s.revCount)
    (h1 : s.revQueue ≠ [] → 0 < s.revCount) :
    0 ≤ ((fillRev env s).2).revCount ∧
    ((fillRev env s).1 = true → 0 < ((fillRev env s).2).revCount) := by
  simp only [fillRev]
  by_cases hq : s.revQueue ≠ []
  · rw [if_pos hq]
    exact ⟨h0, fun _ => h1 hq⟩
  · rw [if_neg hq]
    by_cases hc : s.revCount = 0
    · rw [if_pos hc]
      exact ⟨h0, fun h => by simp at h⟩
    · rw [if_neg hc]
      by_cases hatt : revFillAttempt env s ≠ []
      · rw [if_pos hatt]
        exact ⟨h0, fun _ => by dsimp only; omega⟩
      · rw [if_neg hatt]
        have hrq : (selfHealRevState env s).revQueue = [] := rfl
        have hsc := selfHealRevState_count_nonneg env s
        simp only [fillRevR]
        rw [if_neg (by simp [hrq])]
        by_cases hc2 : (selfHealRevState env s).revCount = 0
        · rw [if_pos hc2]
          exact ⟨hsc, fun h => by simp at h⟩
        · rw [if_neg hc2]
          by_cases hatt2 : revFillAttempt env (selfHealRevState env s) ≠ []
          · rw [if_pos hatt2]
            exact ⟨hsc, fun _ => by dsimp only; omega⟩
          · rw [if_neg hatt2]
            exact ⟨hsc, fun h => by simp at h⟩

/-- C9 (amended): per hand-out the matching count is decremented exactly once
(relative to the post-fill state); `lrnCount` stays non-negative
unconditionally, and `newCount` / `revCount` stay non-negative provided a
non-empty buffer implies a positive count — a consistency that buffer/count
drift can break, see the counterexample; `lrnCount` is incremented by a
re-queue exactly on the preview path or the within-collapse learning path. -/
theorem counts_decrement_and_nonneg (env : Col) (now : Int) (s : Sched)
    (collapse : Bool) (c : CardRow) :
    (0 ≤ s.lrnCount → 0 ≤ ((getLrnCard env now collapse s).2).lrnCount) ∧
    (0 ≤ s.lrnCount → 0 ≤ ((getLrnDayCard env s).2).lrnCount) ∧
    (0 ≤ s.newCount → (s.newQueue ≠ [] → 0 < s.newCount) →
      0 ≤ ((getNewCard env s).2).newCount) ∧
    (0 ≤ s.revCount → (s.revQueue ≠ [] → 0 < s.revCount) →
      0 ≤ ((getRevCard env s).2).revCount) ∧
    (((getNewCard env s).1).isSome = true →
      ((getNewCard env s).2).newCount = ((fillNew env s).2).newCount - 1) ∧
    (((getRevCard env s).1).isSome = true →
      ((getRevCard env s).2).revCount = ((fillRev env s).2).revCount - 1) ∧
    (((getLrnDayCard env s).1).isSome = true →
      ((getLrnDayCard env s).2).lrnCount =
        ((fillLrnDay env s).2).lrnCount - 1) ∧
    (((getLrnCard env now collapse s).1).isSome = true →
      ((getLrnCard env now collapse s).2).lrnCount =
        ((fillLrn env now (maybeResetLrn env now
          (collapse ∧ s.lrnCount = 0) s)).2).lrnCount - 1) ∧
    (maybeRequeueCard env now c s).lrnCount =
      s.lrnCount + (if c.queue = QUEUE_TYPE_PREVIEW ∨
        (c.queue = QUEUE_TYPE_LRN ∧ c.due < now + env.collapseTime)
        then 1 else 0) := by
  refine ⟨?_, ?_, ?_, ?_, ?_, ?_, ?_, ?_, ?_⟩
  · -- getLrnCard keeps lrnCount non-negative
    intro h
    unfold getLrnCard
    set m := maybeResetLrn env now (collapse ∧ s.lrnCount = 0) s
      with hmdef
    have hm : 0 ≤ m.lrnCount := maybeResetLrn_lrnCount_nonneg env now _ s h
    rcases hf : fillLrn env now m with ⟨b, t⟩
    have ht : t.lrnCount = m.lrnCount := by
      have h2 := fillLrn_count env now m
      rw [hf] at h2
      exact h2
    cases b
    · dsimp only
      omega
    · have hz := fillLrn_true env now m
      rw [hf] at hz
      have hz2 := hz rfl
      dsimp only
      rcases hlq : t.lrnQueue with _ | ⟨⟨d, i⟩, rest⟩
      · dsimp only
        omega
      · dsimp only
        by_cases hd : d < now + (if collapse = true then env.collapseTime else 0)
        · rw [if_pos hd]
          dsimp only
          omega
        · rw [if_neg hd]
          dsimp only
          omega
  · -- getLrnDayCard keeps lrnCount non-negative
    intro h
    unfold getLrnDayCard
    rcases hf : fillLrnDay env s with ⟨b, t⟩
    have ht : t.lrnCount = s.lrnCount := by
      have := fillLrnDay_count env s
      rw [hf] at this
      exact this
    cases b
    · dsimp
      omega
    · have hz := fillLrnDay_true env s
      rw [hf] at hz
      have hz2 := hz rfl
      dsimp
      omega
  · -- getNewCard keeps newCount non-negative
    intro h0 h1
    obtain ⟨ha, hb⟩ := fillNew_pos env s h0 h1
    unfold getNewCard
    rcases hf : fillNew env s with ⟨b, t⟩
    rw [hf] at ha hb
    cases b
    · exact ha
    · have h2 := hb rfl
      dsimp only at h2 ⊢
      omega
  · -- getRevCard keeps revCount non-negative
    intro h0 h1
    obtain ⟨ha, hb⟩ := fillRev_pos env s h0 h1
    unfold getRevCard
    rcases hf : fillRev env s with ⟨b, t⟩
    rw [hf] at ha hb
    cases b
    · exact ha
    · have h2 := hb rfl
      dsimp only at h2 ⊢
      omega
  · -- getNewCard decrements exactly once on a hand-out
    unfold getNewCard
    rcases hf : fillNew env s with ⟨b, t⟩
    cases b
    · intro h
      simp at h
    · intro _
      rfl
  · -- getRevCard decrements exactly once on a hand-out
    unfold getRevCard
    rcases hf : fillRev env s with ⟨b, t⟩
    cases b
    · intro h
      simp at h
    · intro _
      rfl
  · -- getLrnDayCard decrements exactly once on a hand-out
    unfold getLrnDayCard
    rcases hf : fillLrnDay env s with ⟨b, t⟩
    cases b
    · intro h
      simp at h
    · intro _
      rfl
  · -- getLrnCard decrements exactly once on a hand-out
    unfold getLrnCard
    set m := maybeResetLrn env now (collapse ∧ s.lrnCount = 0) s
      with hmdef
    rcases hf : fillLrn env now m with ⟨b, t⟩
    have ht : t.lrnCount = m.lrnCount := by
      have h2 := fillLrn_count env now m
      rw [hf] at h2
      exact h2
    cases b
    · intro h
      simp at h
    · dsimp only
      rcases hlq : t.lrnQueue with _ | ⟨⟨d, i⟩, rest⟩
      · intro h
        simp at h
      · dsimp only
        by_cases hd : d < now + (if collapse = true then env.collapseTime else 0)
        · rw [if_pos hd]
          intro _
          rfl
        · rw [if_neg hd]
          intro h
          simp at h
  · -- the re-queue increments lrnCount exactly on the two learning paths
    unfold maybeRequeueCard
    split_ifs <;> (try dsimp only) <;> first
      | omega
      | simp_all
      | (simp_all; omega)

/-- C9 counterexample: from a drifted state whose review buffer holds two
ids while `revCount` is 1, two consecutive `_getRevCard` hand-outs drive
`revCount` to −1 — `_fillRev` trusts a non-empty buffer without consulting
the count, so the counts are not non-negative under every operation
sequence. -/
theorem counts_nonneg_counterexample :
    sDrift.revCount = 1 ∧ sDrift.revQueue = [7, 8] ∧
    ((getRevCard baseEnv ((getRevCard baseEnv sDrift).2)).2).revCount = -1 := by
  decide

/-- C9 witness: on the ten-new/five-review post-reset state, handing out a
new card keeps the count non-negative, and handing out a review card
decrements the count by exactly one. -/
theorem counts_decrement_and_nonneg_witness :
    0 ≤ ((getNewCard envSim (reset envSim 10000 (initSched envSim))).2).newCount ∧
    ((getRevCard envSim (reset envSim 10000 (initSched envSim))).2).revCount =
      ((fillRev envSim (reset envSim 10000 (initSched envSim))).2).revCount - 1 := by
  have h := counts_decrement_and_nonneg envSim 10000
    (reset envSim 10000 (initSched envSim)) false dummyCard
  exact ⟨h.2.2.1 (by decide) (fun _ => by decide),
         h.2.2.2.2.2.1 (by decide)⟩

-- C8: getCard on an exhausted session

lemma getCard_exhausted_step (env : Col) (now : Int) (s : Sched)
    (h1 : s.newCount = 0) (h2 : s.lrnCount = 0) (h3 : s.revCount = 0)
    (h4 : s.newQueue = []) (h5 : s.revQueue = []) (h6 : s.lrnQueue = [])
    (h7 : s.lrnDayQueue = []) (h8 : s.haveQueues = true)
    (h9 : now ≤ s.dayCutoff)
    (h10 : lrnRecount env (now + env.collapseTime) s.today = 0) :
    getCard env now s = (none, exhaustedReset env now s) := by
  rcases s with ⟨reps, today, dayCutoff, hqf, lc, a1, a2, a3, ilc, mod, nd,
    ld, nq, lq, ldq, rq⟩
  dsimp only at h1 h2 h3 h4 h5 h6 h7 h8 h9 h10
  subst h1 h2 h3 h4 h5 h6 h7 h8
  have hno : ¬ ((Sched.mk reps today dayCutoff true lc 0 0 0 ilc mod nd ld
      [] [] [] []).dayCutoff < now) := by
    dsimp only
    omega
  by_cases hcase : now + env.collapseTime - lc > 60 <;>
    simp [getCard, getCardCore, getCardInner, getLrnCard, maybeResetLrn,
      updateLrnCutoff, fillLrn, getNewCard, fillNew, timeForNewCard,
      getLrnDayCard, fillLrnDay, getRevCard, fillRev, resetLrn,
      resetLrnCount, exhaustedReset, hno, hcase, h10]

/-- C8 (amended): when the remaining counts are (0,0,0), every buffer is
empty, the day has not rolled over, and re-deriving the learning count at the
current collapse horizon still yields 0, `getCard` returns no card — and it
re-establishes the same conditions (only the learning bookkeeping is
refreshed), so any number of consecutive calls also returns no card.  The
store re-scan hypothesis is necessary: without it the 60-second
learning-cutoff refresh may legitimately produce a card even though the
stored counts were (0,0,0) (see the counterexample). -/
theorem getCard_exhausted_idempotent (env : Col) (now : Int) (s : Sched)
    (h1 : s.newCount = 0) (h2 : s.lrnCount = 0) (h3 : s.revCount = 0)
    (h4 : s.newQueue = []) (h5 : s.revQueue = []) (h6 : s.lrnQueue = [])
    (h7 : s.lrnDayQueue = []) (h8 : s.haveQueues = true)
    (h9 : now ≤ s.dayCutoff)
    (h10 : lrnRecount env (now + env.collapseTime) s.today = 0) :
    ∀ k, pullIds env now k s = List.replicate k none := by
  have hstep := getCard_exhausted_step env now s h1 h2 h3 h4 h5 h6 h7 h8 h9 h10
  have hstep2 : getCard env now (exhaustedReset env now s) =
      (none, exhaustedReset env now s) := by
    have h2 := getCard_exhausted_step env now (exhaustedReset env now s)
      h1 rfl h3 h4 h5 rfl rfl h8 h9 h10
    rwa [show exhaustedReset env now (exhaustedReset env now s) =
      exhaustedReset env now s from rfl] at h2
  have hrep : ∀ n, pullIds env now n (exhaustedReset env now s) =
      List.replicate n none := by
    intro n
    induction n with
    | zero => rfl
    | succ m ih =>
      simp only [pullIds, hstep2, ih, List.replicate_succ]
  intro k
  cases k with
  | zero => rfl
  | succ n =>
    simp only [pullIds, hstep, hrep n, List.replicate_succ]

/-- C8 counterexample: a state reached by `reset` at time 10000 (learning
card due at 11250, beyond the collapse horizon 11200) has remaining counts
(0,0,0) and empty buffers, yet `getCard` at time 10070 returns the card: the
learning-cutoff refresh fires (horizon moved by 70 > 60 seconds), re-derives
`lrnCount = 1`, and the collapse step hands the card out. -/
theorem getCard_zero_counts_counterexample :
    sC8.newCount = 0 ∧ sC8.lrnCount = 0 ∧ sC8.revCount = 0 ∧
    sC8.newQueue = [] ∧ sC8.revQueue = [] ∧ sC8.lrnQueue = [] ∧
    sC8.lrnDayQueue = [] ∧
    (getCard envC8 10070 sC8).1 = some 301 := by
  decide

set_option maxRecDepth 4000 in
/-- C8 witness: the state left after the 15 pulls of the ten-new/five-review
run is exhausted, and three further pulls all return no card. -/
theorem getCard_exhausted_idempotent_witness :
    pullIds envSim 10000 3 (afterPulls envSim 10000 15 (initSched envSim)) =
      List.replicate 3 none := by
  exact getCard_exhausted_idempotent envSim 10000
    (afterPulls envSim 10000 15 (initSched envSim))
    (by decide) (by decide) (by decide) (by decide) (by decide) (by decide)
    (by decide) (by decide) (by decide) (by decide) 3

-- C5: the sibling-burying invariant

lemma buryStep_new_nodup (bN bR : Bool) (p : Sched × List Nat) (r : CardRow)
    (h : (p.1).newQueue.Nodup) : ((buryStep bN bR p r).1).newQueue.Nodup := by
  unfold buryStep
  by_cases hq : r.queue = QUEUE_TYPE_REV
  · rw [if_pos hq]
    exact h
  · rw [if_neg hq]
    exact h.erase r.id

lemma buryStep_rev_nodup (bN bR : Bool) (p : Sched × List Nat) (r : CardRow)
    (h : (p.1).revQueue.Nodup) : ((buryStep bN bR p r).1).revQueue.Nodup := by
  unfold buryStep
  by_cases hq : r.queue = QUEUE_TYPE_REV
  · rw [if_pos hq]
    exact h.erase r.id
  · rw [if_neg hq]
    exact h

lemma buryFold_new_mem (bN bR : Bool) (rows : List CardRow) :
    ∀ (p : Sched × List Nat) (x : Nat),
      x ∈ ((rows.foldl (buryStep bN bR) p).1).newQueue →
      x ∈ (p.1).newQueue := by
  induction rows with
  | nil => intro p x h; exact h
  | cons r rest ih =>
    intro p x h
    have h2 := ih (buryStep bN bR p r) x h
    unfold buryStep at h2
    by_cases hq : r.queue = QUEUE_TYPE_REV
    · rwa [if_pos hq] at h2
    · rw [if_neg hq] at h2
      exact List.mem_of_mem_erase h2

lemma buryFold_rev_mem (bN bR : Bool) (rows : List CardRow) :
    ∀ (p : Sched × List Nat) (x : Nat),
      x ∈ ((rows.foldl (buryStep bN bR) p).1).revQueue →
      x ∈ (p.1).revQueue := by
  induction rows with
  | nil => intro p x h; exact h
  | cons r rest ih =>
    intro p x h
    have h2 := ih (buryStep bN bR p r) x h
    unfold buryStep at h2
    by_cases hq : r.queue = QUEUE_TYPE_REV
    · rw [if_pos hq] at h2
      exact List.mem_of_mem_erase h2
    · rwa [if_neg hq] at h2

lemma buryFold_new_not_mem (bN bR : Bool) (rows : List CardRow) :
    ∀ (p : Sched × List Nat) (c : CardRow), c ∈ rows →
      c.queue ≠ QUEUE_TYPE_REV → (p.1).newQueue.Nodup →
      c.id ∉ ((rows.foldl (buryStep bN bR) p).1).newQueue := by
  induction rows with
  | nil => intro p c hmem; cases hmem
  | cons r rest ih =>
    intro p c hmem hq hnd
    rcases List.mem_cons.mp hmem with rfl | hmem2
    · intro hcontra
      have h2 := buryFold_new_mem bN bR rest (buryStep bN bR p c) c.id hcontra
      unfold buryStep at h2
      rw [if_neg hq] at h2
      exact hnd.not_mem_erase h2
    · exact ih (buryStep bN bR p r) c hmem2 hq (buryStep_new_nodup bN bR p r hnd)

lemma buryFold_rev_not_mem (bN bR : Bool) (rows : List CardRow) :
    ∀ (p : Sched × List Nat) (c : CardRow), c ∈ rows →
      c.queue = QUEUE_TYPE_REV → (p.1).revQueue.Nodup →
      c.id ∉ ((rows.foldl (buryStep bN bR) p).1).revQueue := by
  induction rows with
  | nil => intro p c hmem; cases hmem
  | cons r rest ih =>
    intro p c hmem hq hnd
    rcases List.mem_cons.mp hmem with rfl | hmem2
    · intro hcontra
      have h2 := buryFold_rev_mem bN bR rest (buryStep bN bR p c) c.id hcontra
      unfold buryStep at h2
      rw [if_pos hq] at h2
      exact hnd.not_mem_erase h2
    · exact ih (buryStep bN bR p r) c hmem2 hq (buryStep_rev_nodup bN bR p r hnd)

lemma buryFold_toBury (bN bR : Bool) (rows : List CardRow) :
    ∀ p : Sched × List Nat,
      (rows.foldl (buryStep bN bR) p).2 =
        p.2 ++ (rows.filter
          (fun c => if c.queue = QUEUE_TYPE_REV then bR else bN)).map
          (fun c => c.id) := by
  induction rows with
  | nil => intro p; simp
  | cons r rest ih =>
    intro p
    rw [List.foldl_cons, ih, List.filter_cons]
    unfold buryStep
    by_cases hcq : r.queue = QUEUE_TYPE_REV
    · rw [if_pos hcq]
      by_cases hb : bR
      · simp [hcq, hb]
      · simp [hcq, hb]
    · rw [if_neg hcq]
      by_cases hb : bN
      · simp [hcq, hb]
      · simp [hcq, hb]

lemma maybeRequeue_preserves_new_rev (env : Col) (now : Int) (c : CardRow)
    (s : Sched) :
    (maybeRequeueCard env now c s).newQueue = s.newQueue ∧
    (maybeRequeueCard env now c s).revQueue = s.revQueue := by
  unfold maybeRequeueCard
  split_ifs <;> exact ⟨rfl, rfl⟩

lemma answerCard_queues (env : Col) (now : Int) (card : CardRow) (ease : Nat)
    (s : Sched) :
    ((answerCard env now card ease s).1).newQueue =
      ((burySiblings env card s).1).newQueue ∧
    ((answerCard env now card ease s).1).revQueue =
      ((burySiblings env card s).1).revQueue ∧
    (answerCard env now card ease s).2 = (burySiblings env card s).2 := by
  unfold answerCard
  by_cases hl : env.stateIsLeech card.id ease
  · rw [if_pos hl]
    exact ⟨rfl, rfl, rfl⟩
  · rw [if_neg hl]
    exact ⟨(maybeRequeue_preserves_new_rev env now _ _).1,
      (maybeRequeue_preserves_new_rev env now _ _).2, rfl⟩

/-- C5: after `answerCard` on a card, no sibling (same note, different id)
remains in the new or review buffer, provided the buffers were consistent
with the store (each buffered id belongs to a row of the matching queue kind,
due today for reviews) and duplicate-free; the in-memory discard does not
depend on the bury flags, while the id list passed to the external bury call
is exactly the matched siblings whose kind's bury policy is enabled. -/
theorem answerCard_removes_siblings (env : Col) (now : Int) (card : CardRow)
    (ease : Nat) (s : Sched)
    (hnew : ∀ i ∈ s.newQueue, ∃ c, c ∈ env.cards ∧ c.id = i ∧
      c.queue = QUEUE_TYPE_NEW)
    (hrev : ∀ i ∈ s.revQueue, ∃ c, c ∈ env.cards ∧ c.id = i ∧
      c.queue = QUEUE_TYPE_REV ∧ c.due ≤ s.today)
    (hids : ∀ c1 ∈ env.cards, ∀ c2 ∈ env.cards, c1.id = c2.id → c1 = c2)
    (hn1 : s.newQueue.Nodup) (hn2 : s.revQueue.Nodup) :
    (∀ c ∈ env.cards, c.nid = card.nid → c.id ≠ card.id →
      c.id ∉ ((answerCard env now card ease s).1).newQueue ∧
      c.id ∉ ((answerCard env now card ease s).1).revQueue) ∧
    (answerCard env now card ease s).2 =
      ((siblingRows env card s.today).filter
        (fun c => if c.queue = QUEUE_TYPE_REV then (homeConfig env card).buryRev
                  else (homeConfig env card).buryNew)).map (fun c => c.id) := by
  obtain ⟨hq1, hq2, hq3⟩ := answerCard_queues env now card ease s
  have hbury : burySiblings env card s =
      (siblingRows env card s.today).foldl
        (buryStep (homeConfig env card).buryNew (homeConfig env card).buryRev)
        (s, []) := rfl
  have hnotnew : ∀ c ∈ env.cards, c.queue ≠ QUEUE_TYPE_NEW →
      c.id ∉ s.newQueue := by
    intro c hc hq hmem
    obtain ⟨c2, hc2, hceq, hc2q⟩ := hnew c.id hmem
    exact hq (by rw [hids c hc c2 hc2 hceq.symm]; exact hc2q)
  have hnotrev : ∀ c ∈ env.cards,
      (c.queue ≠ QUEUE_TYPE_REV ∨ ¬ c.due ≤ s.today) →
      c.id ∉ s.revQueue := by
    intro c hc hq hmem
    obtain ⟨c2, hc2, hceq, hc2q, hc2d⟩ := hrev c.id hmem
    have hcc : c = c2 := hids c hc c2 hc2 hceq.symm
    rcases hq with hq | hq
    · exact hq (by rw [hcc]; exact hc2q)
    · exact hq (by rw [hcc]; exact hc2d)
  constructor
  · intro c hc hnid hne
    rw [hq1, hq2, hbury]
    by_cases hcq2 : c.queue = QUEUE_TYPE_REV
    · by_cases hdue : c.due ≤ s.today
      · have hrow : c ∈ siblingRows env card s.today :=
          List.mem_filter.mpr ⟨hc, by simp [hnid, hne, hcq2, hdue]⟩
        refine ⟨?_, buryFold_rev_not_mem _ _ _ _ c hrow hcq2 hn2⟩
        intro hcontra
        exact hnotnew c hc (by rw [hcq2]; decide)
          (buryFold_new_mem _ _ _ _ _ hcontra)
      · refine ⟨?_, ?_⟩
        · intro hcontra
          exact hnotnew c hc (by rw [hcq2]; decide)
            (buryFold_new_mem _ _ _ _ _ hcontra)
        · intro hcontra
          exact hnotrev c hc (Or.inr hdue) (buryFold_rev_mem _ _ _ _ _ hcontra)
    · by_cases hcq0 : c.queue = QUEUE_TYPE_NEW
      · have hrow : c ∈ siblingRows env card s.today :=
          List.mem_filter.mpr ⟨hc, by simp [hnid, hne, hcq0]⟩
        refine ⟨buryFold_new_not_mem _ _ _ _ c hrow hcq2 hn1, ?_⟩
        intro hcontra
        exact hnotrev c hc (Or.inl hcq2) (buryFold_rev_mem _ _ _ _ _ hcontra)
      · refine ⟨?_, ?_⟩
        · intro hcontra
          exact hnotnew c hc hcq0 (buryFold_new_mem _ _ _ _ _ hcontra)
        · intro hcontra
          exact hnotrev c hc (Or.inl hcq2) (buryFold_rev_mem _ _ _ _ _ hcontra)
  · rw [hq3, hbury, buryFold_toBury]
    simp

/-- C5 witness: answering card 401 discards its new sibling 402 and its due
review sibling 403 from the buffers (unrelated cards 404, 405 stay), and the
external bury call receives only 402 — the new kind is bury-enabled, the
review kind is not. -/
theorem answerCard_removes_siblings_witness :
    ((answerCard envBury 10000 (revRow 401 100) 3 sBury).1).newQueue = [404] ∧
    ((answerCard envBury 10000 (revRow 401 100) 3 sBury).1).revQueue = [405] ∧
    (402 ∉ ((answerCard envBury 10000 (revRow 401 100) 3 sBury).1).newQueue ∧
     402 ∉ ((answerCard envBury 10000 (revRow 401 100) 3 sBury).1).revQueue) ∧
    (answerCard envBury 10000 (revRow 401 100) 3 sBury).2 = [402] := by
  have h := answerCard_removes_siblings envBury 10000 (revRow 401 100) 3 sBury
    (by decide) (by decide) (by decide) (by decide) (by decide)
  refine ⟨by decide, by decide, ?_, by decide⟩
  exact h.1 { newRow 402 1 with nid := 401 } (by decide) (by decide) (by decide)

-- C6: leech handling and re-queueing

/-- C6: after `answerCard`, a leech-classified card is never pushed back into
any buffer (the final state is exactly the post-bury state), while a
non-leech card reloaded as a short-term learning card due within the collapse
window increments `lrnCount` and is heap-pushed into the learning buffer with
its due first raised to `max(due, smallest buffered due + 1)` exactly when
the buffer is non-empty and both `newCount` and `revCount` are zero (the
`nudgedDue` definition). -/
theorem answerCard_leech_and_requeue (env : Col) (now : Int) (card : CardRow)
    (ease : Nat) (s : Sched) :
    (env.stateIsLeech card.id ease = true →
      (answerCard env now card ease s).1 = (burySiblings env card s).1) ∧
    (env.stateIsLeech card.id ease = false →
      (env.postCard card.id ease).queue = QUEUE_TYPE_LRN →
      (env.postCard card.id ease).due < now + env.collapseTime →
      (answerCard env now card ease s).1 =
        { (burySiblings env card s).1 with
            lrnCount := (burySiblings env card s).1.lrnCount + 1,
            lrnQueue := insertLe lePair
              (nudgedDue (burySiblings env card s).1
                 (env.postCard card.id ease),
               (env.postCard card.id ease).id)
              (burySiblings env card s).1.lrnQueue }) := by
  constructor
  · intro hl
    unfold answerCard
    rw [hl]
    simp
  · intro hl hq hdue
    unfold answerCard
    rw [hl]
    simp only [Bool.false_eq_true, if_false]
    unfold maybeRequeueCard
    rw [if_neg (by rw [hq]; decide), if_neg (by rw [hq]; simp),
      if_neg (by omega)]
    unfold nudgedDue
    rcases hlq : (burySiblings env card s).1.lrnQueue with _ | ⟨⟨d0, j⟩, rest⟩
    · simp [hlq]
    · simp [hlq]

/-- C6 witness: answering card 401 with ease 1 (a leech in this environment)
leaves the post-bury state untouched; with ease 3 it is re-queued into the
learning buffer behind the already-buffered item (due nudged within the
collapse window). -/
theorem answerCard_leech_and_requeue_witness :
    (answerCard envBury 10000 (revRow 401 100) 1 sBury).1 =
      (burySiblings envBury (revRow 401 100) sBury).1 ∧
    ((answerCard envBury 10000 (revRow 401 100) 3 sBury).1).lrnQueue =
      [(10050, 777), (10100, 401)] := by
  have h := answerCard_leech_and_requeue envBury 10000 (revRow 401 100) 1 sBury
  have h3 := answerCard_leech_and_requeue envBury 10000 (revRow 401 100) 3 sBury
  refine ⟨h.1 (by decide), ?_⟩
  rw [h3.2 (by decide) (by decide) (by decide)]
  decide

/-- C10 witness: the very first `getCard` of a fresh scheduler on the
ten-new/five-review environment goes through a full reset. -/
theorem getCard_resets_first_witness :
    getCard envSim 10000 (initSched envSim) =
      getCardCore envSim 10000 (reset envSim 10000 (initSched envSim)) ∧
    (reset envSim 10000 (initSched envSim)).newCount = 10 := by
  have h := getCard_resets_first envSim 10000 (initSched envSim) rfl
  exact ⟨h.1, by rw [h.2.2.2.2.2.2.2.2.1]; decide⟩

end AnkiSched

